import Mathlib

/-!
Verification development for the audio-analyzer repository.

The program drives an external ffmpeg binary per audio file, captures the
stderr text of each probe, and recovers numeric metrics from that text with
a fixed set of precompiled regular expressions (src/analyzer.rs), assembling
the values into an AudioMetrics record (src/types.rs).  Everything effectful
(the filesystem walk, process spawning) is embedded by passing the outcome of
the effect as an explicit argument; the parsing layer is embedded as
executable functions over lists of characters that implement the exact
regular expressions of src/analyzer.rs, with the backtracking order of the
regex crate spelled out where it matters.

Numeric values are modelled as rationals: every number the program parses is
a finite decimal literal, and decimals are exactly representable here, so a
rational carries strictly more information than the f64 of the source while
agreeing with it on every comparison the claims make.
-/

/-- Probe output text, as a list of characters. -/
abbrev Text := List Char

/-- ASCII fragment of the regex class matched by a whitespace escape in the
regex crate: space, tab, newline, vertical tab, form feed, carriage return.
All probe texts considered are ASCII, where this is the exact class. -/
def isWS (c : Char) : Bool :=
  c = ' ' || c = '\t' || c = '\n' || c = '\r' || c = Char.ofNat 11 || c = Char.ofNat 12

/-- Character class of the capture groups in analyzer.rs: digits, dot, minus.
The classes written as 0-9.- and as -digit-dot in the source are the same set. -/
def isNumChar (c : Char) : Bool :=
  c.isDigit || c = '.' || c = '-'

/-- Drop the maximal whitespace run at the front. -/
def dropWS : Text → Text
  | [] => []
  | c :: r => if isWS c then dropWS r else c :: r

/-- Split off the maximal whitespace run at the front. -/
def takeWS : Text → Text × Text
  | [] => ([], [])
  | c :: r =>
    if isWS c then
      let (w, rest) := takeWS r
      (c :: w, rest)
    else ([], c :: r)

/-- Split off the maximal run of capture-class characters at the front. -/
def takeNum : Text → Text × Text
  | [] => ([], [])
  | c :: r =>
    if isNumChar c then
      let (n, rest) := takeNum r
      (c :: n, rest)
    else ([], c :: r)

/-- Match a literal character sequence at the front, returning the rest. -/
def stripLit : Text → Text → Option Text
  | [], t => some t
  | _ :: _, [] => none
  | p :: ps, c :: r => if p = c then stripLit ps r else none

/-- True when every character is an ASCII digit. -/
def allDigits (t : Text) : Bool := t.all Char.isDigit

/-- Value of a digit run. -/
def digitsToNat (t : Text) : Nat :=
  t.foldl (fun acc c => acc * 10 + (c.toNat - 48)) 0

/-- Split the text at the first dot, if any. -/
def breakAtDot : Text → Text × Option Text
  | [] => ([], none)
  | c :: r =>
    if c = '.' then ([], some r)
    else
      let (a, b) := breakAtDot r
      (c :: a, b)

/-- Exact value of the decimal with integer digits ip and fraction digits fp,
built with mkRat over Nat arithmetic so that it evaluates by kernel
reduction. -/
def decimalToRat (ip fp : Text) : ℚ :=
  mkRat (digitsToNat ip * 10 ^ fp.length + digitsToNat fp) (10 ^ fp.length)

/-- Unsigned part of the float grammar accepted by the standard parse of the
source on the capture alphabet of digits, dot and minus: a digit run, or a
digit run, dot, digit run, with at least one digit overall.  A second dot or
a stray minus makes a chunk fail the digit test and the parse rejects. -/
def parseUnsigned (t : Text) : Option ℚ :=
  match breakAtDot t with
  | (ip, none) =>
    if ip ≠ [] ∧ allDigits ip then some (decimalToRat ip []) else none
  | (ip, some fp) =>
    if allDigits ip ∧ allDigits fp ∧ (ip ≠ [] ∨ fp ≠ []) then
      some (decimalToRat ip fp)
    else none

/-- Model of the standard float parse of the source, restricted to the
alphabet its captures are drawn from, with exact rational values. -/
def parse_f64 : Text → Option ℚ
  | '-' :: r => (parseUnsigned r).map Neg.neg
  | '+' :: r => parseUnsigned r
  | t => parseUnsigned t

/-!
## Regex models

One executable matcher per precompiled regular expression of
src/analyzer.rs, implementing the leftmost-first match semantics of the
regex crate.  Greedy character-class repetitions followed by a character of
a disjoint class never benefit from backtracking, so they are implemented as
maximal runs; the two places where backtracking order is observable — the
whitespace-then-newline tail, and the any-char-run before a literal key
inside one line — are implemented with the exact order the engine uses
(last newline of the whitespace run first; rightmost key occurrence in the
line first).
-/

/-- Generic matcher result: the capture and the rest of the text after the
whole match (used to continue a non-overlapping scan). -/
abbrev MatchRes := Option (Text × Text)

/-- The regex named EBUR128_LRA_REGEX: literal LRA colon, whitespace, a
nonempty capture run of digits, dot, minus, whitespace, literal LU.  Applied
at one position. -/
def matchLRAAt (t : Text) : MatchRes :=
  match stripLit "LRA:".toList t with
  | none => none
  | some r =>
    let (cap, r1) := takeNum (dropWS r)
    if cap.isEmpty then none
    else
      match stripLit "LU".toList (dropWS r1) with
      | none => none
      | some r2 => some (cap, r2)

/-- First match of an unanchored pattern: try every position left to right,
as the captures method of the regex crate does. -/
def scanFirst (m : Text → MatchRes) : Text → Option Text
  | [] => none
  | c :: r =>
    match m (c :: r) with
    | some (cap, _) => some cap
    | none => scanFirst m r

/-- All matches, leftmost and non-overlapping, continuing after each match
end, as captures_iter does.  Fuel is the text length plus one; every
successful match of the matchers used here consumes at least one character,
so the fuel never runs out before the text does. -/
def scanAllAux (m : Text → MatchRes) : Nat → Text → List Text
  | 0, _ => []
  | _ + 1, [] => []
  | fuel + 1, c :: rest =>
    match m (c :: rest) with
    | some (cap, r) => cap :: scanAllAux m fuel r
    | none => scanAllAux m fuel rest

/-- All captures of an unanchored pattern in the text. -/
def scanAll (m : Text → MatchRes) (t : Text) : List Text :=
  scanAllAux m (t.length + 1) t

/-- The regex named EBUR128_SUMMARY_LRA_REGEX, at one line start: the LRA
line shape of matchLRAAt followed by whitespace and a multiline end-of-line
anchor.  The anchor holds if some split of the whitespace run ends the text
or stands before a newline, which happens exactly when the run contains a
newline or the text ends right after it. -/
def matchSummaryLraAt (t : Text) : Option Text :=
  match stripLit "LRA:".toList t with
  | none => none
  | some r =>
    let (cap, r1) := takeNum (dropWS r)
    if cap.isEmpty then none
    else
      match stripLit "LU".toList (dropWS r1) with
      | none => none
      | some r2 =>
        let (w, r3) := takeWS r2
        if r3.isEmpty || w.contains '\n' then some cap else none

/-- First match of the line-anchored summary pattern: the start of the text
and every position after a newline are the candidate positions, scanned top
to bottom. -/
def findSummaryLraAux : Bool → Text → Option Text
  | _, [] => none
  | atLineStart, c :: r =>
    match (if atLineStart then matchSummaryLraAt (c :: r) else none) with
    | some cap => some cap
    | none => findSummaryLraAux (c = '\n') r

/-- First capture of EBUR128_SUMMARY_LRA_REGEX in the text. -/
def ebur128SummaryLra (t : Text) : Option Text :=
  findSummaryLraAux true t

/-- Shared shape of SIMPLE_PEAK_REGEX and SIMPLE_RMS_REGEX: a literal key,
whitespace, then a nonempty capture run of minus, digits, dot. -/
def matchKeyNumAt (key : Text) (t : Text) : MatchRes :=
  match stripLit key t with
  | none => none
  | some r =>
    let (cap, r1) := takeNum (dropWS r)
    if cap.isEmpty then none else some (cap, r1)

/-- Key of SIMPLE_PEAK_REGEX. -/
def peakKey : Text := "Peak level dB:".toList

/-- Key of SIMPLE_RMS_REGEX. -/
def rmsKey : Text := "RMS level dB:".toList

/-- Drop through the first newline; none when no newline is left, which is
where a lazy line-skipping repetition stops. -/
def dropLine : Text → Option Text
  | [] => none
  | c :: r => if c = '\n' then some r else dropLine r

/-- The part of a whitespace run after its last newline; none when the run
has no newline.  This is the split the engine commits to first when a greedy
whitespace repetition is followed by a literal newline. -/
def afterLastNewline : Text → Option Text
  | [] => none
  | c :: r =>
    match afterLastNewline r with
    | some tail => some tail
    | none => if c = '\n' then some r else none

/-- Greedy whitespace followed by a literal newline: succeeds when the
maximal whitespace run contains a newline, continuing after the last one. -/
def wsThenNewline (t : Text) : Option Text :=
  let (w, r) := takeWS t
  (afterLastNewline w).map (· ++ r)

/-- All successful occurrences inside the current line, left to right, of a
literal key followed by a continuation.  A greedy any-char-but-newline run
before the key makes the engine try the rightmost occurrence first, so the
occurrence the whole pattern commits to is the last element of this list. -/
def lineOccs {α : Type} (key : Text) (k : Text → Option α) : Text → List α
  | [] => []
  | c :: r =>
    if c = '\n' then []
    else
      match (stripLit key (c :: r)).bind k with
      | some a => a :: lineOccs key k r
      | none => lineOccs key k r

/-- Lazy line skipping before an in-line key pattern: try the current line
with the rightmost successful occurrence, else drop one full line and
retry; fail when no full line is left.  Fuel as in scanAll. -/
def searchLinesAux {α : Type} (key : Text) (k : Text → Option α) : Nat → Text → Option α
  | 0, _ => none
  | fuel + 1, t =>
    match (lineOccs key k t).getLast? with
    | some a => some a
    | none =>
      match dropLine t with
      | some r => searchLinesAux key k fuel r
      | none => none

/-- Entry point of the lazy line search, starting at a line start. -/
def searchLines {α : Type} (key : Text) (k : Text → Option α) (t : Text) : Option α :=
  searchLinesAux key k (t.length + 1) t

/-- Continuation shared by the capture tails: whitespace, then a nonempty
capture run of minus, digits, dot, with nothing required after it. -/
def numCont (rest : Text) : Option Text :=
  let (cap, _) := takeNum (dropWS rest)
  if cap.isEmpty then none else some cap

/-- Continuation for the peak capture of ASTATS_OVERALL_REGEX: whitespace,
nonempty capture run, then greedy whitespace followed by a literal newline;
returns the capture and the position after that newline. -/
def numThenNewline (rest : Text) : Option (Text × Text) :=
  let (cap, r) := takeNum (dropWS rest)
  if cap.isEmpty then none
  else (wsThenNewline r).map fun r2 => (cap, r2)

/-- Header shared by ASTATS_OVERALL_REGEX (digit 0) and
HIGHPASS_ASTATS_REGEX (digit 1), at one line start: the bracketed
Parsed_astats tag with at least one non-bracket character for the address,
the literal Overall, then greedy whitespace followed by a newline. -/
def matchAstatsHeaderAt (digit : Char) (t : Text) : Option Text :=
  match stripLit ("[Parsed_astats_".toList ++ [digit] ++ " @ ".toList) t with
  | none => none
  | some r =>
    let addr := r.takeWhile (fun c => c ≠ ']')
    if addr.isEmpty then none
    else
      match stripLit "] Overall".toList (r.drop addr.length) with
      | none => none
      | some r2 => wsThenNewline r2

/-- Full HIGHPASS_ASTATS_REGEX at one line start: the astats header with
digit 1, then lazily skipped lines to an RMS key followed by a capture. -/
def matchHighpassAt (t : Text) : Option Text :=
  (matchAstatsHeaderAt '1' t).bind fun r => searchLines rmsKey numCont r

/-- Full ASTATS_OVERALL_REGEX at one line start: the astats header with
digit 0, then lazily skipped lines to a Peak key whose capture must end its
line, then from after that line lazily skipped lines to an RMS key with a
capture.  The search for the RMS part is inside the continuation of the
peak occurrence, mirroring how the engine backtracks over peak occurrences
when the RMS part fails later. -/
def matchAstatsOverallAt (t : Text) : Option (Text × Text) :=
  (matchAstatsHeaderAt '0' t).bind fun r =>
    searchLines peakKey
      (fun rest =>
        (numThenNewline rest).bind fun pr =>
          (searchLines rmsKey numCont pr.2).map fun rc => (pr.1, rc))
      r

/-- First match of a line-anchored pattern: try the start of the text, then
each position after a newline, top to bottom.  Fuel as in scanAll. -/
def scanLineStartsAux {α : Type} (m : Text → Option α) : Nat → Text → Option α
  | 0, _ => none
  | fuel + 1, t =>
    match m t with
    | some a => some a
    | none =>
      match dropLine t with
      | some r => scanLineStartsAux m fuel r
      | none => none

/-- First match of a line-anchored pattern over the whole text. -/
def scanLineStarts {α : Type} (m : Text → Option α) (t : Text) : Option α :=
  scanLineStartsAux m (t.length + 1) t

/-- First pair of captures of ASTATS_OVERALL_REGEX in the text. -/
def astatsOverallCaps (t : Text) : Option (Text × Text) :=
  scanLineStarts matchAstatsOverallAt t

/-- First capture of HIGHPASS_ASTATS_REGEX in the text. -/
def highpassAstatsCap (t : Text) : Option Text :=
  scanLineStarts matchHighpassAt t

/-!
## Data model and error type

From src/types.rs and src/error.rs.  Strings that only travel through error
messages are kept as Lean strings; u64 fields are Nat, since sizes and
durations never wrap in any behavior the claims mention.
-/

/-- The error enum of src/error.rs.  The io::Error payload is modelled by
its message.  Note the enum has no timeout variant of any kind. -/
inductive AnalyzerError : Type where
  | Io (err : String)
  | FfmpegError (message : String) (stderr : Option String)
  | UnsupportedFormat (path : String) (extension : Option String)
  | ParseError (message : String) (raw_data : Option String)
  | ConfigError (msg : String)
  | DependencyError (msg : String)
  | Other (msg : String)
deriving DecidableEq

deriving instance DecidableEq for Except

/-- Audio statistics pair from src/types.rs, produced by the astats parse. -/
structure AudioStats : Type where
  peak_db : Option ℚ
  rms_db : Option ℚ
deriving DecidableEq

/-- The per-file metrics record of src/types.rs. -/
structure AudioMetrics : Type where
  file_path : String
  file_size_bytes : Nat
  lra : Option ℚ
  peak_amplitude_db : Option ℚ
  overall_rms_db : Option ℚ
  rms_db_above_16k : Option ℚ
  rms_db_above_18k : Option ℚ
  rms_db_above_20k : Option ℚ
  processing_time_ms : Nat
deriving DecidableEq

/-- AudioMetrics::new — path and size known, all metric fields absent. -/
def AudioMetrics.new (file_path : String) (file_size_bytes : Nat) : AudioMetrics :=
  { file_path := file_path
    file_size_bytes := file_size_bytes
    lra := none
    peak_amplitude_db := none
    overall_rms_db := none
    rms_db_above_16k := none
    rms_db_above_18k := none
    rms_db_above_20k := none
    processing_time_ms := 0 }

/-- AudioMetrics::is_complete from src/types.rs line 65. -/
def AudioMetrics.is_complete (m : AudioMetrics) : Bool :=
  m.lra.isSome && m.peak_amplitude_db.isSome && m.rms_db_above_18k.isSome

/-!
## Probe runner and extractors

From src/utils.rs (process_utils) and src/analyzer.rs.  The outcome of the
spawned process is an explicit argument: an io error from spawning, or the
captured output of the finished process.
-/

/-- What the operating system hands back for one finished process. -/
structure ProcessOutput : Type where
  status_success : Bool
  stdout : Text
  stderr : Text

/-- process_utils::run_command_capture_stderr, src/utils.rs lines 79 to 87:
stdin null, stdout null, stderr piped; a spawn failure becomes an Io error
through the question mark; otherwise the stderr text is returned as a
success, with no look at the exit status, no timeout of any kind applied and
no process termination.  The function has no timeout input because the
source consults none — FfmpegConfig::timeout_seconds is read nowhere. -/
def run_command_capture_stderr (spawn : Except String ProcessOutput) :
    Except AnalyzerError Text :=
  match spawn with
  | .error e => .error (.Io e)
  | .ok out => .ok out.stderr

/-- Parsing half of AudioAnalyzer::extract_lra_ebur128, src/analyzer.rs
lines 360 to 383: first the summary regex, whose capture must also parse;
otherwise all captures of the repeated regex are parsed and the last parsed
value wins; otherwise a ParseError carrying the first 500 characters. -/
def extract_lra_parse (stderr : Text) : Except AnalyzerError ℚ :=
  match (ebur128SummaryLra stderr).bind parse_f64 with
  | some v => .ok v
  | none =>
    match ((scanAll matchLRAAt stderr).filterMap parse_f64).getLast? with
    | some v => .ok v
    | none =>
      .error (.ParseError "无法从EBU R128输出中解析LRA值" (some (String.mk (stderr.take 500))))

/-- AudioAnalyzer::extract_lra_ebur128 with the process outcome made
explicit: run the command, propagate a runner failure, else parse. -/
def extract_lra_ebur128 (spawn : Except String ProcessOutput) : Except AnalyzerError ℚ :=
  (run_command_capture_stderr spawn).bind extract_lra_parse

/-- Both ends trimmed of whitespace, modelling str::trim on ASCII text. -/
def trimText (t : Text) : Text :=
  (dropWS (dropWS t.reverse).reverse)

/-- Parsing half of AudioAnalyzer::extract_audio_stats, src/analyzer.rs
lines 425 to 450: when the structured overall regex matches, its two
captures are parsed independently and the result is returned at once, even
when a capture fails to parse; only when the regex does not match at all do
the two simple regexes run, each contributing its first capture when it
parses; all four absent yields a ParseError with the trimmed text. -/
def extract_audio_stats_parse (stderr : Text) : Except AnalyzerError AudioStats :=
  match astatsOverallCaps stderr with
  | some caps => .ok { peak_db := parse_f64 caps.1, rms_db := parse_f64 caps.2 }
  | none =>
    let peak_db := (scanFirst (matchKeyNumAt peakKey) stderr).bind parse_f64
    let rms_db := (scanFirst (matchKeyNumAt rmsKey) stderr).bind parse_f64
    if peak_db.isSome || rms_db.isSome then .ok { peak_db := peak_db, rms_db := rms_db }
    else
      .error (.ParseError "无法从astats输出中解析峰值/RMS" (some (String.mk (trimText stderr))))

/-- AudioAnalyzer::extract_audio_stats with the process outcome explicit. -/
def extract_audio_stats (spawn : Except String ProcessOutput) : Except AnalyzerError AudioStats :=
  (run_command_capture_stderr spawn).bind extract_audio_stats_parse

/-- Parsing half of AudioAnalyzer::extract_highpass_rms, src/analyzer.rs
lines 481 to 502: the highpass regex first, its capture must parse; else all
captures of the simple RMS regex are parsed and the last parsed value wins;
else the fixed sentinel -144.  This path never fails: the total function
returns a plain value. -/
def extract_highpass_rms_parse (stderr : Text) : ℚ :=
  match (highpassAstatsCap stderr).bind parse_f64 with
  | some v => v
  | none =>
    match ((scanAll (matchKeyNumAt rmsKey) stderr).filterMap parse_f64).getLast? with
    | some v => v
    | none => mkRat (-144) 1

/-- AudioAnalyzer::extract_highpass_rms with the process outcome explicit:
only a runner failure can make it fail. -/
def extract_highpass_rms (spawn : Except String ProcessOutput) : Except AnalyzerError ℚ :=
  (run_command_capture_stderr spawn).map extract_highpass_rms_parse

/-!
## Orchestrator and batch coordinator

From src/analyzer.rs lines 191 to 320.  The six probe invocations and the
metadata read are independent effects; their outcomes enter as one record.
The nested rayon joins only schedule the six probes and hand back all six
results, so the embedding consumes the six outcomes directly.
-/

/-- Outcomes of the one metadata read and the five process spawns that
AudioAnalyzer::analyze_file performs for one file. -/
structure ProbeRuns : Type where
  size_result : Except AnalyzerError Nat
  lra_run : Except String ProcessOutput
  stats_run : Except String ProcessOutput
  rms16_run : Except String ProcessOutput
  rms18_run : Except String ProcessOutput
  rms20_run : Except String ProcessOutput

/-- AudioAnalyzer::analyze_file, src/analyzer.rs lines 191 to 256: the
metadata read fails the file through the question mark; every probe result
is then absorbed field by field — ok into the field, err into leaving the
field absent — and the record is returned as a success.  The elapsed
wall-clock time enters as an argument. -/
def analyze_file (file_path : String) (runs : ProbeRuns) (processing_time_ms : Nat) :
    Except AnalyzerError AudioMetrics :=
  match runs.size_result with
  | .error e => .error e
  | .ok file_size =>
    let lra_result := extract_lra_ebur128 runs.lra_run
    let stats_result := extract_audio_stats runs.stats_run
    let rms_16k_result := extract_highpass_rms runs.rms16_run
    let rms_18k_result := extract_highpass_rms runs.rms18_run
    let rms_20k_result := extract_highpass_rms runs.rms20_run
    let m := AudioMetrics.new file_path file_size
    let m := { m with lra := lra_result.toOption }
    let m :=
      match stats_result with
      | .ok stats => { m with peak_amplitude_db := stats.peak_db, overall_rms_db := stats.rms_db }
      | .error _ => m
    .ok { m with
          rms_db_above_16k := rms_16k_result.toOption
          rms_db_above_18k := rms_18k_result.toOption
          rms_db_above_20k := rms_20k_result.toOption
          processing_time_ms := processing_time_ms }

/-- AudioAnalyzer::analyze_files, src/analyzer.rs lines 259 to 303, with
the per-file analysis as an explicit function from path to outcome: empty
input returns an empty success at once; otherwise the parallel filter-map
keeps the successes in input order, printing one diagnostic per failed file
(modelled as the list of path and error pairs) and never failing itself. -/
def analyze_files (analyzeOne : String → Except AnalyzerError AudioMetrics)
    (file_paths : List String) :
    Except AnalyzerError (List AudioMetrics) × List (String × AnalyzerError) :=
  if file_paths.isEmpty then (.ok [], [])
  else
    ( .ok (file_paths.filterMap fun p => (analyzeOne p).toOption),
      file_paths.filterMap fun p =>
        match analyzeOne p with
        | .ok _ => none
        | .error e => some (p, e) )

/-- AudioAnalyzer::analyze_directory, src/analyzer.rs lines 306 to 320,
with the scan outcome explicit: a scan failure propagates; an empty scan is
turned into an error; otherwise the batch runs.  Only the first component
of the batch result is returned, as the source returns the collection. -/
def analyze_directory (analyzeOne : String → Except AnalyzerError AudioMetrics)
    (scan_result : Except AnalyzerError (List String)) :
    Except AnalyzerError (List AudioMetrics) :=
  match scan_result with
  | .error e => .error e
  | .ok audio_files =>
    if audio_files.isEmpty then .error (.Other "在指定目录中未找到支持的音频文件")
    else (analyze_files analyzeOne audio_files).1

/-!
## Path filter and directory scan

From src/utils.rs (fs_utils).  The walk of the directory tree is an
explicit input: the stream of entries the walker yields, each either an
entry or a walk error.  The walker of the source yields a nonexistent or
unreadable root as an error entry in this stream.
-/

/-- ASCII lowercasing of one character, as the case-insensitive comparison
of the source performs it. -/
def asciiLower (c : Char) : Char :=
  if 'A' ≤ c ∧ c ≤ 'Z' then Char.ofNat (c.toNat + 32) else c

/-- str::eq_ignore_ascii_case — equal lengths and ASCII-case-insensitive
equality position by position. -/
def eqIgnoreAsciiCase : Text → Text → Bool
  | [], [] => true
  | a :: as_, b :: bs => asciiLower a = asciiLower b && eqIgnoreAsciiCase as_ bs
  | _, _ => false

/-- The final path component: everything after the last slash. -/
def lastComponent (p : Text) : Text :=
  ((p.reverse.takeWhile (fun c => c ≠ '/')).reverse)

/-- Model of Path::extension of the standard library on the paths the scan
sees: in the final component, the part after the last dot, none when there
is no dot or the only dot leads a hidden file name. -/
def path_extension (p : String) : Option Text :=
  let name := lastComponent p.toList
  let revName := name.reverse
  let revExt := revName.takeWhile (fun c => c ≠ '.')
  if revExt.length = name.length then none
  else if revExt.length + 1 = name.length then none
  else some revExt.reverse

/-- fs_utils::is_supported_audio_file, src/utils.rs lines 38 to 47: the
extension, when present, is compared case-insensitively against every
configured extension; a path without extension is never supported. -/
def is_supported_audio_file (path : String) (supported_extensions : List String) : Bool :=
  match path_extension path with
  | none => false
  | some ext => supported_extensions.any fun s => eqIgnoreAsciiCase s.toList ext

/-- One entry yielded by the directory walker: a regular file or any other
entry kind (directories, symlinks), with its path. -/
inductive WalkEntry : Type where
  | file (path : String)
  | other (path : String)
deriving DecidableEq

/-- fs_utils::scan_audio_files, src/utils.rs lines 17 to 35, over the
walker stream: every entry is unwrapped with a question mark after mapping
the walk error into an Io error, so the first error entry in the stream
fails the whole scan; file entries passing the filter are collected in
stream order. -/
def scan_audio_files (walk : List (Except String WalkEntry))
    (supported_extensions : List String) : Except AnalyzerError (List String) :=
  match walk with
  | [] => .ok []
  | .error e :: _ => .error (.Io e)
  | .ok (.file p) :: rest =>
    (scan_audio_files rest supported_extensions).map fun l =>
      if is_supported_audio_file p supported_extensions then p :: l else l
  | .ok (.other _) :: rest => scan_audio_files rest supported_extensions

/-!
## Serialized dataset

From the serde derives on AudioMetrics in src/types.rs: each field carries
a rename attribute fixing its serialized name, optional fields serialize as
null when absent, and deserialization looks fields up by name in the
object.  Numbers are the exact rationals of the record; the serializer of
the source emits f64 values with a shortest round-tripping representation,
so value identity is preserved there exactly as here.
-/

/-- JSON values, as far as the dataset needs them. -/
inductive Json : Type where
  | null : Json
  | num (q : ℚ) : Json
  | nat (n : Nat) : Json
  | str (s : String) : Json
  | obj (fields : List (String × Json)) : Json
  | arr (xs : List Json) : Json

/-- Field lookup in an object, by serialized name. -/
def Json.getField (j : Json) (k : String) : Option Json :=
  match j with
  | .obj fs => fs.lookup k
  | _ => none

/-- The serialized names of an object, in emission order. -/
def Json.objKeys (j : Json) : List String :=
  match j with
  | .obj fs => fs.map Prod.fst
  | _ => []

/-- An optional number: null when absent, the value otherwise. -/
def optNumJson : Option ℚ → Json
  | none => .null
  | some q => .num q

/-- Reading back an optional number. -/
def Json.asOptNum : Json → Option (Option ℚ)
  | .null => some none
  | .num q => some (some q)
  | _ => none

/-- Reading back a string. -/
def Json.asStr : Json → Option String
  | .str s => some s
  | _ => none

/-- Reading back an unsigned integer. -/
def Json.asNat : Json → Option Nat
  | .nat n => some n
  | _ => none

/-- Serialization of one record under the rename attributes of
src/types.rs lines 9 to 46, in declaration order. -/
def AudioMetrics.to_json (m : AudioMetrics) : Json :=
  .obj
    [ ("filePath", .str m.file_path)
    , ("fileSizeBytes", .nat m.file_size_bytes)
    , ("lra", optNumJson m.lra)
    , ("peakAmplitudeDb", optNumJson m.peak_amplitude_db)
    , ("overallRmsDb", optNumJson m.overall_rms_db)
    , ("rmsDbAbove16k", optNumJson m.rms_db_above_16k)
    , ("rmsDbAbove18k", optNumJson m.rms_db_above_18k)
    , ("rmsDbAbove20k", optNumJson m.rms_db_above_20k)
    , ("processingTimeMs", .nat m.processing_time_ms) ]

/-- Deserialization of one record: every field is looked up by its
serialized name, independent of order; a missing field or a wrong shape
fails, null makes an optional field absent. -/
def AudioMetrics.from_json (j : Json) : Option AudioMetrics := do
  let file_path ← (j.getField "filePath").bind Json.asStr
  let file_size_bytes ← (j.getField "fileSizeBytes").bind Json.asNat
  let lra ← (j.getField "lra").bind Json.asOptNum
  let peak_amplitude_db ← (j.getField "peakAmplitudeDb").bind Json.asOptNum
  let overall_rms_db ← (j.getField "overallRmsDb").bind Json.asOptNum
  let rms_db_above_16k ← (j.getField "rmsDbAbove16k").bind Json.asOptNum
  let rms_db_above_18k ← (j.getField "rmsDbAbove18k").bind Json.asOptNum
  let rms_db_above_20k ← (j.getField "rmsDbAbove20k").bind Json.asOptNum
  let processing_time_ms ← (j.getField "processingTimeMs").bind Json.asNat
  pure
    { file_path := file_path
      file_size_bytes := file_size_bytes
      lra := lra
      peak_amplitude_db := peak_amplitude_db
      overall_rms_db := overall_rms_db
      rms_db_above_16k := rms_db_above_16k
      rms_db_above_18k := rms_db_above_18k
      rms_db_above_20k := rms_db_above_20k
      processing_time_ms := processing_time_ms }

/-!
## Spec-modelled comparison definition and concrete inputs
-/

/-- Modelled from the spec: the fall-through reading of the parsing rule in
section 4.4 — a match whose captured text fails to parse as a number is
treated as no match and the extractor falls through to the next strategy —
applied to the astats extractor: the structured strategy only counts when
both captures parse, otherwise the simple strategies run.  This is the
behavior the claim ascribes to the source, for comparison with
extract_audio_stats_parse. -/
def extract_audio_stats_fallthrough (stderr : Text) : Except AnalyzerError AudioStats :=
  match (astatsOverallCaps stderr).bind
      (fun caps => (parse_f64 caps.1).bind fun p => (parse_f64 caps.2).map fun r => (p, r)) with
  | some pr => .ok { peak_db := some pr.1, rms_db := some pr.2 }
  | none =>
    let peak_db := (scanFirst (matchKeyNumAt peakKey) stderr).bind parse_f64
    let rms_db := (scanFirst (matchKeyNumAt rmsKey) stderr).bind parse_f64
    if peak_db.isSome || rms_db.isSome then .ok { peak_db := peak_db, rms_db := rms_db }
    else
      .error (.ParseError "无法从astats输出中解析峰值/RMS" (some (String.mk (trimText stderr))))

/-- Probe text with three repeated LRA values and no summary line. -/
def lraRepeatedText : Text :=
  "st LRA: 5.0 LU a\nst LRA: 7.2 LU b\nst LRA: 9.9 LU c".toList

/-- Probe text whose summary LRA line matches with an unparseable capture
and whose repeated matches end in a parseable value. -/
def lraBadSummaryText : Text :=
  "LRA: -.- LU\nLRA: 4.5 LU x".toList

/-- Probe text where the structured astats pattern matches with captures
that fail to parse, while the simple patterns would find parseable values
earlier in the text. -/
def astatsBadCapsText : Text :=
  "Peak level dB: -3.0\nRMS level dB: -20.0\n[Parsed_astats_0 @ 0x1] Overall\nPeak level dB: ...\nRMS level dB: ...\n".toList

/-- Probe text containing no RMS pattern under any strategy. -/
def noRmsText : Text := "ffmpeg version n4, nothing useful here".toList

/-- One concrete environment for the orchestrator: readable size, failing
loudness-range probe, all other probes succeeding. -/
def probeRunsW : ProbeRuns :=
  { size_result := Except.ok 2048
    lra_run := Except.error "spawn failed"
    stats_run := Except.ok ⟨true, [], "Peak level dB: -1.0\nRMS level dB: -18.0".toList⟩
    rms16_run := Except.ok ⟨true, [], "RMS level dB: -60.0".toList⟩
    rms18_run := Except.ok ⟨true, [], "RMS level dB: -70.5".toList⟩
    rms20_run := Except.ok ⟨true, [], noRmsText⟩ }

/-!
## Theorems
-/

example : parse_f64 "9.9".toList = some (mkRat 99 10) := by decide
example : parse_f64 "-144.0".toList = some (mkRat (-144) 1) := by decide
example : parse_f64 "...".toList = none := by decide
example : parse_f64 "1.2.3".toList = none := by decide
example : parse_f64 "5.".toList = some (mkRat 5 1) := by decide
example : parse_f64 "-".toList = none := by decide
example : parse_f64 "7.2".toList = some (mkRat 36 5) := by decide
example : scanAll matchLRAAt "x LRA: 5.0 LU y LRA: 9.9 LU".toList
    = ["5.0".toList, "9.9".toList] := by decide
example : ebur128SummaryLra "noise\nLRA: 7.5 LU\nmore".toList = some "7.5".toList := by decide
example : ebur128SummaryLra "x LRA: 7.5 LU\n".toList = none := by decide
example : scanFirst (matchKeyNumAt peakKey) "a Peak level dB: -3.0 b".toList
    = some "-3.0".toList := by decide
example : is_supported_audio_file "x.MP3" ["mp3"] = true := by decide
example : is_supported_audio_file "FILE.WAV" ["wav"] = true := by decide
example : is_supported_audio_file "noext" ["wav"] = false := by decide

/-- C7: a record is complete exactly when loudness range, peak amplitude
and the 18kHz RMS field are all present, and completeness depends on
nothing but those three fields. -/
theorem is_complete_characterization :
    (∀ m : AudioMetrics,
      m.is_complete = true ↔
        (m.lra.isSome = true ∧ m.peak_amplitude_db.isSome = true
          ∧ m.rms_db_above_18k.isSome = true))
    ∧ ∀ m m' : AudioMetrics, m.lra = m'.lra →
        m.peak_amplitude_db = m'.peak_amplitude_db →
        m.rms_db_above_18k = m'.rms_db_above_18k →
        m.is_complete = m'.is_complete := by
  constructor
  · intro m
    simp [AudioMetrics.is_complete, Bool.and_eq_true, and_assoc]
  · intro m m' h1 h2 h3
    simp [AudioMetrics.is_complete, h1, h2, h3]

/-- Witness for C7 at concrete records differing in every field outside
the three that matter. -/
theorem is_complete_characterization_witness :
    ((AudioMetrics.new "a.wav" 1).is_complete = true ↔
      ((AudioMetrics.new "a.wav" 1).lra.isSome = true
        ∧ (AudioMetrics.new "a.wav" 1).peak_amplitude_db.isSome = true
        ∧ (AudioMetrics.new "a.wav" 1).rms_db_above_18k.isSome = true))
    ∧ (AudioMetrics.new "a.wav" 1).is_complete = (AudioMetrics.new "b.wav" 2).is_complete :=
  ⟨is_complete_characterization.1 _, is_complete_characterization.2 _ _ rfl rfl rfl⟩

/-- C3: the probe runner applies no timeout.  The result of the runner is a
function of the spawn outcome alone: a finished process — however long it
ran — always yields its captured stderr as a success, and a spawn failure
maps to a plain Io error.  The runner has no timeout input because the
source consults none, and the error enum of src/error.rs has no timeout
variant that could be reported. -/
theorem run_command_no_timeout :
    (∀ out : ProcessOutput, run_command_capture_stderr (Except.ok out) = Except.ok out.stderr)
    ∧ ∀ e, run_command_capture_stderr (Except.error e) = Except.error (AnalyzerError.Io e) :=
  ⟨fun _ => rfl, fun _ => rfl⟩

/-- C10 counterexample: a directory whose scan yields no eligible files
makes analyze_directory return an error, not an empty collection. -/
theorem analyze_directory_empty_scan_errors :
    analyze_directory (fun _ => Except.error (AnalyzerError.Other "unused")) (Except.ok [])
      = Except.error (AnalyzerError.Other "在指定目录中未找到支持的音频文件")
    ∧ analyze_directory (fun _ => Except.error (AnalyzerError.Other "unused")) (Except.ok [])
      ≠ Except.ok [] := by
  exact ⟨rfl, by simp [analyze_directory]⟩

/-- C10 amended: analyze_files on an empty path list succeeds with the
empty collection and no diagnostics, while analyze_directory turns an
empty scan into an error instead of returning an empty collection. -/
theorem empty_input_behavior (f g : String → Except AnalyzerError AudioMetrics) :
    analyze_files f [] = (Except.ok [], [])
    ∧ analyze_directory g (Except.ok [])
      = Except.error (AnalyzerError.Other "在指定目录中未找到支持的音频文件") :=
  ⟨rfl, rfl⟩

/-- C4 counterexample: a scan over an existing root with one good file
entry and one errored entry fails wholesale with the entry error wrapped as
an Io error, instead of skipping it. -/
theorem scan_entry_error_fails_scan :
    scan_audio_files
        [Except.ok (WalkEntry.file "a.wav"), Except.error "permission denied"] ["wav"]
      = Except.error (AnalyzerError.Io "permission denied")
    ∧ ∀ l, scan_audio_files
        [Except.ok (WalkEntry.file "a.wav"), Except.error "permission denied"] ["wav"]
      ≠ Except.ok l := by
  refine ⟨rfl, ?_⟩
  intro l
  simp [scan_audio_files, Except.map]

/-- C4 amended: the first errored entry of the walker stream fails the whole
scan with that error wrapped as Io, however many well-formed entries precede
it.  A nonexistent or unreadable root reaches the scan that way, as an
errored first entry of the walk; an existing plain-file root, by contrast,
is yielded by the walker as an ordinary file entry, so the scan succeeds on
it, keeping the file when its extension is supported. -/
theorem scan_aborts_on_first_entry_error :
    (∀ (pre rest : List (Except String WalkEntry)) (e : String) (exts : List String),
      (∀ r ∈ pre, ∃ en, r = Except.ok en) →
      scan_audio_files (pre ++ Except.error e :: rest) exts
        = Except.error (AnalyzerError.Io e))
    ∧ ∀ (p : String) (exts : List String),
        scan_audio_files [Except.ok (WalkEntry.file p)] exts
          = Except.ok (if is_supported_audio_file p exts then [p] else []) := by
  constructor
  · intro pre rest e exts hpre
    induction pre with
    | nil => rfl
    | cons r pre ih =>
      obtain ⟨en, rfl⟩ := hpre r (List.mem_cons_self r pre)
      have ihr := ih fun r hr => hpre r (List.mem_cons_of_mem _ hr)
      cases en with
      | file p => simp [scan_audio_files, ihr, Except.map]
      | other p => simpa [scan_audio_files] using ihr
  · intro p exts
    rfl

/-- Witness for the amended C4: a concrete stream with one good entry before
the errored one fails with that error, and a concrete plain-file root scans
successfully. -/
theorem scan_aborts_on_first_entry_error_witness :
    scan_audio_files
        ([Except.ok (WalkEntry.file "b.wav")] ++ Except.error "denied" :: []) ["wav"]
      = Except.error (AnalyzerError.Io "denied")
    ∧ scan_audio_files [Except.ok (WalkEntry.file "root.wav")] ["wav"]
      = Except.ok (if is_supported_audio_file "root.wav" ["wav"] then ["root.wav"] else []) :=
  ⟨scan_aborts_on_first_entry_error.1 [Except.ok (WalkEntry.file "b.wav")] [] "denied" ["wav"]
      (by intro r hr; simp at hr; exact ⟨_, hr⟩),
    scan_aborts_on_first_entry_error.2 "root.wav" ["wav"]⟩

/-- The successes kept and the diagnostics emitted by one batch pass
partition the input: their lengths add up to the number of paths. -/
theorem length_ok_add_err (f : String → Except AnalyzerError AudioMetrics) :
    ∀ paths : List String,
      (paths.filterMap fun p => (f p).toOption).length
        + (paths.filterMap fun p =>
            match f p with | .ok _ => none | .error e => some (p, e)).length
        = paths.length := by
  intro paths
  induction paths with
  | nil => rfl
  | cons p ps ih =>
    cases h : f p with
    | ok a =>
      simp [List.filterMap_cons, h, Except.toOption] at ih ⊢
      omega
    | error e =>
      simp [List.filterMap_cons, h, Except.toOption] at ih ⊢
      omega

/-- C8: the batch call always succeeds, its diagnostics are exactly one
path and error pair per failed file, and the kept records and the
diagnostics together account for every input path — so K failures out of N
files leave exactly N minus K records. -/
theorem analyze_files_partial_failure (f : String → Except AnalyzerError AudioMetrics)
    (paths : List String) :
    ∃ l : List AudioMetrics,
      (analyze_files f paths).1 = Except.ok l
      ∧ (analyze_files f paths).2 =
          paths.filterMap (fun p =>
            match f p with | .ok _ => none | .error e => some (p, e))
      ∧ l.length + ((analyze_files f paths).2).length = paths.length := by
  by_cases hp : paths.isEmpty
  · refine ⟨[], ?_, ?_, ?_⟩ <;>
      simp_all [analyze_files, List.isEmpty_iff]
  · refine ⟨paths.filterMap fun p => (f p).toOption, ?_, ?_, ?_⟩ <;>
      simp [analyze_files, hp, length_ok_add_err]

/-- The optional-number shapes round-trip. -/
theorem asOptNum_optNumJson (x : Option ℚ) : (optNumJson x).asOptNum = some x := by
  cases x <;> rfl

/-- C9: serializing a record under the documented field layout and reading
it back yields the record unchanged, the serialized names are exactly the
nine documented ones in order, and an absent loudness range serializes as
null. -/
theorem metrics_json_roundtrip (m : AudioMetrics) :
    AudioMetrics.from_json (AudioMetrics.to_json m) = some m
    ∧ (AudioMetrics.to_json m).objKeys =
        ["filePath", "fileSizeBytes", "lra", "peakAmplitudeDb", "overallRmsDb",
          "rmsDbAbove16k", "rmsDbAbove18k", "rmsDbAbove20k", "processingTimeMs"]
    ∧ (m.lra = none → (AudioMetrics.to_json m).getField "lra" = some Json.null) := by
  refine ⟨?_, rfl, ?_⟩
  · cases m
    simp [AudioMetrics.to_json, AudioMetrics.from_json, Json.getField, List.lookup,
      asOptNum_optNumJson, Json.asStr, Json.asNat]
  · intro h
    simp [AudioMetrics.to_json, Json.getField, List.lookup, h, optNumJson]

/-- Witness for C9 at a concrete record with an absent loudness range. -/
theorem metrics_json_roundtrip_witness :
    AudioMetrics.from_json (AudioMetrics.to_json (AudioMetrics.new "w.wav" 9))
      = some (AudioMetrics.new "w.wav" 9)
    ∧ (AudioMetrics.to_json (AudioMetrics.new "w.wav" 9)).getField "lra" = some Json.null :=
  ⟨(metrics_json_roundtrip _).1, (metrics_json_roundtrip _).2.2 rfl⟩

/-- C2: a high-pass RMS probe whose captured text matches no RMS pattern
under any strategy yields the fixed sentinel -144 as a success, while a
runner failure for the same probe propagates as an error, which the
orchestrator absorbs into an absent field. -/
theorem highpass_sentinel_and_failure :
    (∀ out : ProcessOutput,
        highpassAstatsCap out.stderr = none →
        scanAll (matchKeyNumAt rmsKey) out.stderr = [] →
        extract_highpass_rms (Except.ok out) = Except.ok (mkRat (-144) 1))
    ∧ ∀ e, extract_highpass_rms (Except.error e) = Except.error (AnalyzerError.Io e) := by
  constructor
  · intro out h1 h2
    simp [extract_highpass_rms, run_command_capture_stderr, extract_highpass_rms_parse, h1, h2,
      Except.map]
  · intro e
    rfl

/-- Witness for C2 at a concrete text without any RMS pattern, and a
concrete spawn failure. -/
theorem highpass_sentinel_and_failure_witness :
    extract_highpass_rms (Except.ok ⟨true, [], noRmsText⟩) = Except.ok (mkRat (-144) 1)
    ∧ extract_highpass_rms (Except.error "boom") = Except.error (AnalyzerError.Io "boom") :=
  ⟨highpass_sentinel_and_failure.1 ⟨true, [], noRmsText⟩ (by decide) (by decide),
    highpass_sentinel_and_failure.2 "boom"⟩

/-- C5: when the summary strategy yields nothing, the loudness-range
extractor returns the last parsed value among the repeated-occurrence
matches. -/
theorem extract_lra_last_match (out : ProcessOutput) (v : ℚ)
    (hsummary : (ebur128SummaryLra out.stderr).bind parse_f64 = none)
    (hlast : ((scanAll matchLRAAt out.stderr).filterMap parse_f64).getLast? = some v) :
    extract_lra_ebur128 (Except.ok out) = Except.ok v := by
  simp [extract_lra_ebur128, run_command_capture_stderr, extract_lra_parse, hsummary, hlast,
    Except.bind]

/-- Witness for C5: three repeated LRA occurrences of 5.0, 7.2 and 9.9 LU
with no summary line yield 9.9. -/
theorem extract_lra_last_match_witness :
    extract_lra_ebur128 (Except.ok ⟨true, [], lraRepeatedText⟩) = Except.ok (mkRat 99 10) :=
  extract_lra_last_match ⟨true, [], lraRepeatedText⟩ (mkRat 99 10) (by decide) (by decide)

/-- C6 counterexample: on a text where the structured astats pattern
matches but both captures fail the float parse, the extractor returns an
immediate success with both fields absent instead of falling through to
the simple strategies, which would have recovered -3 and -20 from earlier
lines. -/
theorem astats_match_parse_failure_no_fallthrough :
    astatsOverallCaps astatsBadCapsText = some ("...".toList, "...".toList)
    ∧ parse_f64 "...".toList = none
    ∧ extract_audio_stats (Except.ok ⟨true, [], astatsBadCapsText⟩)
        = Except.ok { peak_db := none, rms_db := none }
    ∧ extract_audio_stats_fallthrough astatsBadCapsText
        = Except.ok { peak_db := some (mkRat (-3) 1), rms_db := some (mkRat (-20) 1) }
    ∧ extract_audio_stats (Except.ok ⟨true, [], astatsBadCapsText⟩)
        ≠ Except.ok { peak_db := some (mkRat (-3) 1), rms_db := some (mkRat (-20) 1) } := by
  refine ⟨by decide, by decide, by decide, by decide, by decide⟩

/-- C6 amended: a match whose captured text fails to parse falls through to
the next strategy in the loudness-range extractor and in the high-pass
extractor; the astats extractor instead commits to its structured match and
returns at once, with each unparseable capture as an absent field. -/
theorem parse_failure_fallthrough_amended :
    (∀ t : Text, (ebur128SummaryLra t).bind parse_f64 = none →
      extract_lra_parse t =
        match ((scanAll matchLRAAt t).filterMap parse_f64).getLast? with
        | some v => Except.ok v
        | none =>
          Except.error
            (.ParseError "无法从EBU R128输出中解析LRA值" (some (String.mk (t.take 500)))))
    ∧ (∀ t : Text, (highpassAstatsCap t).bind parse_f64 = none →
      extract_highpass_rms_parse t =
        match ((scanAll (matchKeyNumAt rmsKey) t).filterMap parse_f64).getLast? with
        | some v => v
        | none => mkRat (-144) 1)
    ∧ ∀ t : Text, ∀ caps : Text × Text, astatsOverallCaps t = some caps →
        extract_audio_stats_parse t
          = Except.ok { peak_db := parse_f64 caps.1, rms_db := parse_f64 caps.2 } := by
  refine ⟨?_, ?_, ?_⟩
  · intro t h
    simp [extract_lra_parse, h]
  · intro t h
    simp [extract_highpass_rms_parse, h]
  · intro t caps h
    simp [extract_audio_stats_parse, h]

/-- Witness for the amended C6: a summary LRA line with an unparseable
capture falls through to the repeated strategy and yields 4.5; a text with
no RMS pattern falls through to the sentinel; the bad-capture astats text
commits to absent fields. -/
theorem parse_failure_fallthrough_amended_witness :
    extract_lra_parse lraBadSummaryText = Except.ok (mkRat 9 2)
    ∧ extract_highpass_rms_parse noRmsText = mkRat (-144) 1
    ∧ extract_audio_stats_parse astatsBadCapsText
        = Except.ok { peak_db := none, rms_db := none } :=
  ⟨parse_failure_fallthrough_amended.1 lraBadSummaryText (by decide),
    parse_failure_fallthrough_amended.2.1 noRmsText (by decide),
    parse_failure_fallthrough_amended.2.2 astatsBadCapsText ("...".toList, "...".toList)
      (by decide)⟩

/-- C1: whenever the size metadata is readable, analyze_file succeeds for
every combination of probe outcomes; each probe that failed leaves its
field absent and each probe that succeeded fills its field with the parsed
value, and a failed loudness-range probe makes the record incomplete. -/
theorem analyze_file_absorbs_probe_failures (file_path : String) (runs : ProbeRuns)
    (pt file_size : Nat) (hsize : runs.size_result = Except.ok file_size) :
    ∃ m : AudioMetrics,
      analyze_file file_path runs pt = Except.ok m
      ∧ m.lra = (extract_lra_ebur128 runs.lra_run).toOption
      ∧ m.peak_amplitude_db
          = ((extract_audio_stats runs.stats_run).toOption).bind AudioStats.peak_db
      ∧ m.overall_rms_db
          = ((extract_audio_stats runs.stats_run).toOption).bind AudioStats.rms_db
      ∧ m.rms_db_above_16k = (extract_highpass_rms runs.rms16_run).toOption
      ∧ m.rms_db_above_18k = (extract_highpass_rms runs.rms18_run).toOption
      ∧ m.rms_db_above_20k = (extract_highpass_rms runs.rms20_run).toOption
      ∧ ((extract_lra_ebur128 runs.lra_run).toOption = none → m.is_complete = false) := by
  cases hstats : extract_audio_stats runs.stats_run with
  | ok s =>
    refine ⟨{ file_path := file_path, file_size_bytes := file_size,
              lra := (extract_lra_ebur128 runs.lra_run).toOption,
              peak_amplitude_db := s.peak_db,
              overall_rms_db := s.rms_db,
              rms_db_above_16k := (extract_highpass_rms runs.rms16_run).toOption,
              rms_db_above_18k := (extract_highpass_rms runs.rms18_run).toOption,
              rms_db_above_20k := (extract_highpass_rms runs.rms20_run).toOption,
              processing_time_ms := pt }, ?_, rfl, ?_, ?_, rfl, rfl, rfl, ?_⟩
    · simp [analyze_file, hsize, hstats, AudioMetrics.new]
    · rfl
    · rfl
    · intro h
      simp [AudioMetrics.is_complete, h]
  | error e =>
    refine ⟨{ file_path := file_path, file_size_bytes := file_size,
              lra := (extract_lra_ebur128 runs.lra_run).toOption,
              peak_amplitude_db := none,
              overall_rms_db := none,
              rms_db_above_16k := (extract_highpass_rms runs.rms16_run).toOption,
              rms_db_above_18k := (extract_highpass_rms runs.rms18_run).toOption,
              rms_db_above_20k := (extract_highpass_rms runs.rms20_run).toOption,
              processing_time_ms := pt }, ?_, rfl, ?_, ?_, rfl, rfl, rfl, ?_⟩
    · simp [analyze_file, hsize, hstats, AudioMetrics.new]
    · rfl
    · rfl
    · intro h
      simp [AudioMetrics.is_complete, h]

/-- Witness for C1 at a concrete environment whose loudness-range probe
fails to spawn while every other probe succeeds. -/
theorem analyze_file_absorbs_probe_failures_witness :
    ∃ m : AudioMetrics,
      analyze_file "t.wav" probeRunsW 5 = Except.ok m
      ∧ m.lra = (extract_lra_ebur128 probeRunsW.lra_run).toOption
      ∧ m.peak_amplitude_db
          = ((extract_audio_stats probeRunsW.stats_run).toOption).bind AudioStats.peak_db
      ∧ m.overall_rms_db
          = ((extract_audio_stats probeRunsW.stats_run).toOption).bind AudioStats.rms_db
      ∧ m.rms_db_above_16k = (extract_highpass_rms probeRunsW.rms16_run).toOption
      ∧ m.rms_db_above_18k = (extract_highpass_rms probeRunsW.rms18_run).toOption
      ∧ m.rms_db_above_20k = (extract_highpass_rms probeRunsW.rms20_run).toOption
      ∧ ((extract_lra_ebur128 probeRunsW.lra_run).toOption = none → m.is_complete = false) :=
  analyze_file_absorbs_probe_failures "t.wav" probeRunsW 5 2048 rfl
